import Mathlib

/-!
Shallow embedding of the MindEase journal application (files v3cla.py and
v3cla5.py of the repository) : mood scoring, streak tracking, remote-reply
parsing, insight generation, persistence saves and CSV export, together with
theorems settling the specification claims about them.
-/

namespace Mental

/-! ### Mood anchors (v3cla.py lines 529-535, v3cla5.py lines 1203-1209)

The handler maps the five mood labels to fixed anchor scores via a dict
lookup with default 5. -/

/-- The five mood labels offered by the slider. -/
def moodLabels : List String :=
  ["😔 Very Low", "😟 Low", "😐 Neutral", "🙂 Good", "😊 Great"]

/-- Anchor score of a mood label; the source dict lookup defaults to 5. -/
def moodNumeric (sel : String) : Nat :=
  if sel = "😔 Very Low" then 2
  else if sel = "😟 Low" then 4
  else if sel = "😐 Neutral" then 5
  else if sel = "🙂 Good" then 7
  else if sel = "😊 Great" then 9
  else 5

/-! ### Exact model of the binary64 arithmetic in the blend
(v3cla.py line 541, v3cla5.py line 1215)

The source computes `int((mood_numeric * 0.7) + (text_mood * 0.3))` in
IEEE-754 double precision.  Every value that occurs is a positive dyadic
rational, represented here as an integer numerator at the fixed scale 2^54.
`fl54` is round-to-nearest, ties-to-even at 53 significant bits, i.e. the
rounding the hardware applies to each multiplication and addition. -/

/-- Number of binary digits of a natural number, with explicit fuel. -/
def bitLenAux : Nat → Nat → Nat
  | 0, _ => 0
  | fuel + 1, n => if n = 0 then 0 else bitLenAux fuel (n / 2) + 1

/-- Number of binary digits (64 bits of fuel suffice for every value used). -/
def bitLen (n : Nat) : Nat := bitLenAux 64 n

/-- Round a / b to the nearest integer, ties to even. -/
def rneDiv (a b : Nat) : Nat :=
  let q := a / b
  let r := a % b
  if 2 * r < b then q
  else if b < 2 * r then q + 1
  else if q % 2 = 0 then q else q + 1

/-- Round the value a / 2^54 to the nearest binary64 value (53 significant
bits, ties to even); the result is returned at the same scale 2^54. -/
def fl54 (a : Nat) : Nat :=
  let L := bitLen a
  if L ≤ 53 then a
  else rneDiv a (2 ^ (L - 53)) * 2 ^ (L - 53)

/-- Numerator of the binary64 value nearest 0.7, at scale 2^52. -/
def m07 : Nat := 3152519739159347

/-- Numerator of the binary64 value nearest 0.3, at scale 2^54. -/
def m03 : Nat := 5404319552844595

/-- The value of the Python expression
  int((A * 0.7) + (T * 0.3))
computed in binary64 arithmetic: both products and the sum are each rounded
to nearest-even, and int() truncates (the value is positive, so truncation
is floor).  All quantities are carried at scale 2^54; 0.7 at scale 2^54 has
numerator 4 * m07. -/
def blendTrunc (A T : Nat) : Nat :=
  let p1 := fl54 (A * (4 * m07))
  let p2 := fl54 (T * m03)
  let s := fl54 (p1 + p2)
  s / 2 ^ 54

/-- The clip to the valid range in the handler:
mood_score = max(1, min(10, mood_score)). -/
def clamp110 (n : Nat) : Nat := max 1 (min 10 n)

/-- The mood_score stored by the Reflect handler (v3cla.py lines 538-546,
v3cla5.py lines 1212-1220): with non-empty journal text the anchor is
blended 70/30 with the classifier score and truncated, otherwise the anchor
is used directly; the clip applies in both branches. -/
def entryMoodScore (sel : String) (journalInput : String) (textMood : Nat) : Nat :=
  let moodNum := moodNumeric sel
  if journalInput ≠ "" then clamp110 (blendTrunc moodNum textMood)
  else clamp110 moodNum

/-- Whether the Reflect handler invokes the remote mood classifier: it does
so exactly when the journal text is non-empty (the Python truthiness test
`if journal_input:`). -/
def callsMoodClassifier (journalInput : String) : Bool := journalInput ≠ ""

/-- Modelled from the spec: the score formula the specification text states,
clamp(round(0.7 * A + 0.3 * T), 1, 10) with round-half-up over exact
arithmetic, i.e. clamp((7A + 3T + 5) / 10, 1, 10).  Declared only to be
compared against the score the source computes. -/
def specClaimedScore (A T : Nat) : Nat := clamp110 ((7 * A + 3 * T + 5) / 10)

/-! ### Streak tracking (v3cla.py lines 128-141, v3cla5.py lines 331-344)

Dates are modelled as integer day ordinals; the `.days` difference of two
parsed dates is their integer difference. -/

/-- The per-session streak state: last_entry_date (None or a date) and the
streak counter. -/
structure StreakState where
  last_entry_date : Option Int
  streak : Nat
  deriving DecidableEq, Repr

/-- update_streak: evaluated at entry submission.  With no prior date the
streak becomes 1; otherwise the day difference decides: 1 increments, more
than 1 resets to 1, anything else (the same day) leaves the streak; the
last_entry_date is then set to today in every case. -/
def update_streak (today : Int) (s : StreakState) : StreakState :=
  match s.last_entry_date with
  | some last =>
    let diff := today - last
    if diff = 1 then ⟨some today, s.streak + 1⟩
    else if 1 < diff then ⟨some today, 1⟩
    else ⟨some today, s.streak⟩
  | none => ⟨some today, 1⟩

/-- Session-start state of the streak fields (v3cla5.py lines 272-275): a
fresh session sets streak to 0 and last_entry_date to None; no stored data
is consulted and update_streak is not called (its only call site is the
entry-submission handler, v3cla5.py line 1253). -/
def session_start_streak (_stored : StreakState) (_today : Int) : StreakState :=
  ⟨none, 0⟩

/-! ### Remote-call outcome model

Each remote call is single-shot: one requests.post, whose outcome is either
a response with a status code and body text, or a raised transport
exception.  The functions below are the pure response-handling parts of the
corresponding source functions. -/

/-- Outcome of the one requests.post a remote call performs. -/
inductive ApiResult where
  | ok (status : Nat) (text : String)
  | exn
  deriving DecidableEq, Repr

/-- Python str.strip(): drop leading and trailing whitespace. -/
def pyStrip (s : String) : String :=
  String.mk (((s.toList.dropWhile Char.isWhitespace).reverse.dropWhile
    Char.isWhitespace).reverse)

/-- Integer value of a string of decimal digits, as int() reads it. -/
def digitsVal (l : List Char) : Nat :=
  l.foldl (fun acc c => acc * 10 + (c.toNat - 48)) 0

/-- The reply parser inside analyze_mood (v3cla.py lines 173-176): strip the
reply, keep only its digit characters, and integer-parse the concatenation;
an empty digit string falls back to 5. -/
def parseMoodReply (text : String) : Nat :=
  let score := (pyStrip text).toList.filter Char.isDigit
  if score = [] then 5 else digitsVal score

/-- analyze_mood (v3cla.py lines 144-181) as a function of the remote
outcome: parse on status 200, return the default 5 on any other status and
on a transport exception. -/
def analyze_mood (r : ApiResult) : Nat :=
  match r with
  | .ok status text => if status = 200 then parseMoodReply text else 5
  | .exn => 5

/-- The fallback string returned by the reflection and conversational calls
on any failure (v3cla.py lines 230, 233, 278, 281). -/
def connectionFallback : String :=
  "I'm having trouble connecting right now. Please try again later."

/-- The fallback string returned by the insight call on any failure
(v3cla.py lines 322, 324). -/
def insightsFallback : String :=
  "Unable to generate insights at this time."

/-- get_ai_response (v3cla.py lines 224-233) as a function of the remote
outcome: the reply text on status 200, the connection fallback otherwise. -/
def get_ai_response (r : ApiResult) : String :=
  match r with
  | .ok status text => if status = 200 then text else connectionFallback
  | .exn => connectionFallback

/-- get_ai_reflection (v3cla.py lines 272-281) as a function of the remote
outcome: the reply text on status 200, the connection fallback otherwise. -/
def get_ai_reflection (r : ApiResult) : String :=
  match r with
  | .ok status text => if status = 200 then text else connectionFallback
  | .exn => connectionFallback

/-- The response handling of generate_insights (v3cla.py lines 317-324):
the reply text on status 200, the insights fallback otherwise. -/
def insights_remote (r : ApiResult) : String :=
  match r with
  | .ok status text => if status = 200 then text else insightsFallback
  | .exn => insightsFallback

/-! ### Data model -/

/-- A journal entry (v3cla5.py lines 1229-1239; the v3cla.py variant has
the same fields minus username). -/
structure JournalEntry where
  username : String
  date : String
  time : String
  mood : String
  mood_input : String
  journal : String
  reflection : String
  mood_score : Nat
  tags : List String
  deriving DecidableEq, Repr

/-- A chat message. -/
structure Msg where
  role : String
  content : String
  deriving DecidableEq, Repr

/-- A chat document in the chats collection (v3cla5.py line 326). -/
structure ChatDoc where
  username : String
  chat_id : String
  messages : List Msg
  deriving DecidableEq, Repr

/-! ### Insight generation (v3cla.py lines 284-324, identical in
v3cla5.py lines 799-839) -/

/-- What generate_insights does before any network traffic: either it
returns a static message, or it issues exactly one remote call carrying the
given prompt. -/
inductive InsightAction where
  | static (msg : String)
  | remoteCall (prompt : String)
  deriving DecidableEq, Repr

/-- Text of the insight prompt before the interpolated journal text. -/
def insightPromptPre : String :=
  "\n    You are a mental health insights assistant. Analyze these recent journal entries and provide meaningful insights about patterns, themes, and potential areas for growth:\n\n    "

/-- Text of the insight prompt after the interpolated journal text. -/
def insightPromptPost : String :=
  "\n\n    Provide 3 insights formatted as bullet points. Each insight should be concise, personalized, and actionable. Focus on patterns in emotional states, recurring themes, and gentle suggestions for personal growth.\n    "

/-- The journal bodies sent to the insight call: entries[-5:] keeps the last
five entries (or all of them when fewer exist). -/
def lastFiveJournals (entries : List JournalEntry) : List String :=
  (entries.drop (entries.length - 5)).map (fun e => e.journal)

/-- generate_insights (v3cla.py lines 284-307): with fewer than 3 entries it
returns the static message and makes no remote call; otherwise it issues one
remote call whose prompt embeds the last five journal bodies joined with
single spaces. -/
def generate_insights (entries : List JournalEntry) : InsightAction :=
  if entries.length < 3 then
    .static "Keep journaling! Insights will be generated after you have at least 3 entries."
  else
    .remoteCall (insightPromptPre ++
      String.intercalate " " (lastFiveJournals entries) ++ insightPromptPost)

/-! ### Persistence (v3cla5.py lines 299-328; file variant
v3cla.py lines 110-112) -/

/-- save_journal_entries (v3cla5.py lines 299-306): guarded by
`db is not None and st.session_state.journal_entries and logged_in`; when
the guard holds it delete_many-s every document whose username matches the
current user and then insert_many-s the whole in-memory list; otherwise the
store is untouched. -/
def save_journal_entries (hasDb : Bool) (loggedIn : Bool) (user : String)
    (mem : List JournalEntry) (stored : List JournalEntry) : List JournalEntry :=
  if hasDb && !mem.isEmpty && loggedIn then
    stored.filter (fun d => d.username != user) ++ mem
  else stored

/-- save_chats (v3cla5.py lines 320-328): guarded by
`db is not None and st.session_state.chats and logged_in`; when the guard
holds it delete_many-s every chat document of the current user and then
inserts one document per in-memory chat, stamped with the current username;
otherwise the store is untouched. -/
def save_chats (hasDb : Bool) (loggedIn : Bool) (user : String)
    (chats : List (String × List Msg)) (stored : List ChatDoc) : List ChatDoc :=
  if hasDb && !chats.isEmpty && loggedIn then
    stored.filter (fun d => d.username != user) ++
      chats.map (fun p => ChatDoc.mk user p.1 p.2)
  else stored

/-- The file variant (v3cla.py lines 110-112): json.dump with mode "w"
overwrites the whole file with the in-memory list. -/
def save_journal_entries_file (mem : List JournalEntry)
    (_storedFile : List JournalEntry) : List JournalEntry := mem

/-! ### CSV export (v3cla.py lines 836-851) -/

/-- Python free-text cleanup `.replace(chr(10), chr(32))` used on the two
free-text fields: every newline character becomes a space.  With a
one-character pattern and a one-character replacement this is exactly a
character map. -/
def collapseNewlines (s : String) : String :=
  String.mk (s.toList.map (fun c => if c = '\n' then ' ' else c))

/-- The CSV column headers, in the order the entry dict is built. -/
def csvHeader : List String :=
  ["Date", "Time", "Mood", "Mood Score", "Mood Notes", "Journal Entry", "Tags"]

/-- One CSV row (the entry_dict of v3cla.py lines 837-845): the seven fields
in column order, newlines collapsed in the two free-text fields and the tag
list joined into a single field. -/
def csvRow (e : JournalEntry) : List String :=
  [e.date, e.time, e.mood, toString e.mood_score,
    collapseNewlines e.mood_input, collapseNewlines e.journal,
    String.intercalate ", " e.tags]

/-- The exported CSV as a table: the header row followed by one row per
entry, in order. -/
def export_csv (entries : List JournalEntry) : List (List String) :=
  csvHeader :: entries.map csvRow

/-- Sample entry used to instantiate witness statements. -/
def sampleEntry : JournalEntry :=
  ⟨"u", "2024-01-01", "12:00", "😐 Neutral", "calm\nmorning", "walked\nhome", "r", 5, ["Work", "Health"]⟩

/-! ### Helper lemmas -/

/-- Whitespace characters are not digit characters. -/
theorem ws_not_digit (c : Char) (h : c.isWhitespace = true) : c.isDigit = false := by
  simp only [Char.isWhitespace, Bool.or_eq_true, decide_eq_true_eq] at h
  rcases h with ((h | h) | h) | h <;> subst h <;> decide

/-- Dropping a whitespace prefix does not change the digit characters. -/
theorem filter_dropWhile_ws (l : List Char) :
    (l.dropWhile Char.isWhitespace).filter Char.isDigit = l.filter Char.isDigit := by
  induction l with
  | nil => rfl
  | cons a t ih =>
    cases hw : Char.isWhitespace a
    · simp [List.dropWhile_cons, hw]
    · have hd : Char.isDigit a = false := ws_not_digit a hw
      simp [List.dropWhile_cons, hw, List.filter_cons, hd, ih]

/-- Stripping the reply does not change the digit characters. -/
theorem filter_digits_pyStrip (s : String) :
    (pyStrip s).toList.filter Char.isDigit = s.toList.filter Char.isDigit := by
  show (((s.toList.dropWhile Char.isWhitespace).reverse.dropWhile
      Char.isWhitespace).reverse).filter Char.isDigit = _
  rw [List.filter_reverse, filter_dropWhile_ws, List.filter_reverse,
    List.reverse_reverse, filter_dropWhile_ws]

/-- The result of collapseNewlines holds no newline character. -/
theorem collapseNewlines_no_newline (s : String) :
    '\n' ∉ (collapseNewlines s).toList := by
  intro h
  have h' : '\n' ∈ s.toList.map (fun c => if c = '\n' then ' ' else c) := h
  obtain ⟨a, _, ha⟩ := List.mem_map.mp h'
  by_cases hc : a = '\n'
  · rw [if_pos hc] at ha
    exact absurd ha (by decide)
  · rw [if_neg hc] at ha
    exact hc ha

/-- Keeping the complement of p and then filtering by p yields nothing. -/
theorem filter_not_p_then_p {α : Type} (p : α → Bool) (l : List α) :
    (l.filter (fun a => !(p a))).filter p = [] := by
  induction l with
  | nil => rfl
  | cons a t ih => cases h : p a <;> simp [List.filter_cons, h, ih]

/-- Filtering twice by the same predicate filters once. -/
theorem filter_p_idem {α : Type} (p : α → Bool) (l : List α) :
    (l.filter p).filter p = l.filter p := by
  induction l with
  | nil => rfl
  | cons a t ih => cases h : p a <;> simp [List.filter_cons, h, ih]

/-- A filter that every element passes keeps the list. -/
theorem filter_of_all {α : Type} (p : α → Bool) (l : List α)
    (h : ∀ a ∈ l, p a = true) : l.filter p = l := by
  induction l with
  | nil => rfl
  | cons a t ih =>
    simp [List.filter_cons, h a (by simp),
      ih (fun b hb => h b (by simp [hb]))]

/-- A filter that every element fails keeps nothing. -/
theorem filter_of_none {α : Type} (p : α → Bool) (l : List α)
    (h : ∀ a ∈ l, p a = false) : l.filter p = [] := by
  induction l with
  | nil => rfl
  | cons a t ih =>
    simp [List.filter_cons, h a (by simp),
      ih (fun b hb => h b (by simp [hb]))]

/-- Every mood label maps to one of the five anchor scores. -/
theorem moodNumeric_mem_anchors (sel : String) (hsel : sel ∈ moodLabels) :
    moodNumeric sel ∈ ([2, 4, 5, 7, 9] : List Nat) := by
  fin_cases hsel <;> decide

/-- On the anchors and classifier scores 1-10, the truncated binary64 blend
agrees with exact integer arithmetic: int(A * 0.7 + T * 0.3) = (7A + 3T) / 10. -/
theorem blend_eq_exact : ∀ A ∈ ([2, 4, 5, 7, 9] : List Nat),
    ∀ T ∈ Finset.Icc 1 10,
    clamp110 (blendTrunc A T) = clamp110 ((7 * A + 3 * T) / 10) := by decide

/-! ### Claim theorems -/

/-- Claim C1, counterexample: the handler truncates the blend rather than
rounding half-up.  At anchor Neutral (5) with classifier score 10 the blend
is 6.5; the stored mood_score is 6, not the 7 the claim states. -/
theorem mood_score_neutral_ten_is_six :
    entryMoodScore "😐 Neutral" "Great day overall" 10 = 6
    ∧ specClaimedScore (moodNumeric "😐 Neutral") 10 = 7
    ∧ entryMoodScore "😐 Neutral" "Great day overall" 10 ≠
        specClaimedScore (moodNumeric "😐 Neutral") 10 := by decide

/-- Claim C1, amended: for every mood label, classifier score T in [1,10]
and non-empty journal text, the stored mood_score is the truncation (not
the round-half-up) of 0.7 * anchor + 0.3 * T computed in binary64, clamped
to [1,10]; on this domain it equals clamp((7A + 3T) / 10, 1, 10) in exact
integer arithmetic.  In particular anchor 5 with T = 10 yields 6. -/
theorem mood_score_trunc_blend (sel : String) (hsel : sel ∈ moodLabels)
    (T : Nat) (hT : T ∈ Finset.Icc 1 10) (journal : String) (hj : journal ≠ "") :
    entryMoodScore sel journal T = clamp110 ((7 * moodNumeric sel + 3 * T) / 10) := by
  have h := blend_eq_exact (moodNumeric sel) (moodNumeric_mem_anchors sel hsel) T hT
  simp only [entryMoodScore, if_pos hj]
  exact h

/-- Witness for the amended C1 theorem at a concrete input. -/
theorem mood_score_trunc_blend_witness :
    entryMoodScore "😐 Neutral" "Great day overall" 10 =
      clamp110 ((7 * moodNumeric "😐 Neutral" + 3 * 10) / 10) :=
  mood_score_trunc_blend "😐 Neutral" (by decide) 10 (by decide)
    "Great day overall" (by decide)

/-- Claim C2: update_streak sets the streak to 1 with no prior date,
increments it on a one-day gap, resets it to 1 on a larger gap, leaves it
on a same-day submission, and in every case sets last_entry_date to today. -/
theorem update_streak_transition (today : Int) (s : StreakState) :
    (s.last_entry_date = none → update_streak today s = ⟨some today, 1⟩)
    ∧ (∀ last, s.last_entry_date = some last →
        ((today - last = 1 → (update_streak today s).streak = s.streak + 1)
        ∧ (1 < today - last → (update_streak today s).streak = 1)
        ∧ (today - last = 0 → (update_streak today s).streak = s.streak)))
    ∧ (update_streak today s).last_entry_date = some today := by
  obtain ⟨ld, st⟩ := s
  cases ld with
  | none =>
    refine ⟨fun _ => rfl, ?_, rfl⟩
    intro last h
    exact absurd h (by simp)
  | some last0 =>
    refine ⟨fun h => absurd h (by simp), ?_, ?_⟩
    · intro last h
      have hl : last0 = last := by simpa using h
      subst hl
      refine ⟨?_, ?_, ?_⟩
      · intro hd
        simp only [update_streak]
        rw [if_pos hd]
      · intro hd
        have h1 : ¬ (today - last0 = 1) := by omega
        simp only [update_streak]
        rw [if_neg h1, if_pos hd]
      · intro hd
        have h1 : ¬ (today - last0 = 1) := by omega
        have h2 : ¬ (1 < today - last0) := by omega
        simp only [update_streak]
        rw [if_neg h1, if_neg h2]
    · simp only [update_streak]
      split_ifs <;> rfl

/-- Witness for the C2 theorem: a one-day gap increments the streak. -/
theorem update_streak_transition_witness :
    (update_streak 5 ⟨some 4, 2⟩).streak = 2 + 1 :=
  ((update_streak_transition 5 ⟨some 4, 2⟩).2.1 4 rfl).1 (by decide)

/-- Claim C3: analyze_mood keeps exactly the digit characters of the reply
and integer-parses their concatenation ("7" gives 7, "Score: 8/10" gives
810); a digit-free reply, a non-200 status and a transport exception all
yield the default 5. -/
theorem analyze_mood_digit_extraction :
    analyze_mood (.ok 200 "7") = 7
    ∧ analyze_mood (.ok 200 "Score: 8/10") = 810
    ∧ (∀ text : String, analyze_mood (.ok 200 text) =
        (if text.toList.filter Char.isDigit = [] then 5
         else digitsVal (text.toList.filter Char.isDigit)))
    ∧ (∀ status text, status ≠ 200 → analyze_mood (.ok status text) = 5)
    ∧ analyze_mood .exn = 5 := by
  refine ⟨by decide, by decide, ?_, ?_, rfl⟩
  · intro text
    show parseMoodReply text = _
    simp only [parseMoodReply]
    rw [filter_digits_pyStrip]
  · intro status text h
    simp [analyze_mood, h]

/-- Witness for the C3 theorem: a non-200 status yields the default. -/
theorem analyze_mood_digit_extraction_witness :
    analyze_mood (.ok 500 "8") = 5 :=
  analyze_mood_digit_extraction.2.2.2.1 500 "8" (by decide)

/-- Claim C4: with empty journal text the remote classifier is not called
and the stored mood_score is exactly the anchor score of the label. -/
theorem empty_journal_anchor_score (sel : String) (hsel : sel ∈ moodLabels)
    (textMood : Nat) :
    callsMoodClassifier "" = false
    ∧ entryMoodScore sel "" textMood = moodNumeric sel := by
  refine ⟨rfl, ?_⟩
  fin_cases hsel <;> rfl

/-- Witness for the C4 theorem at a concrete label. -/
theorem empty_journal_anchor_score_witness :
    callsMoodClassifier "" = false
    ∧ entryMoodScore "😊 Great" "" 3 = moodNumeric "😊 Great" :=
  empty_journal_anchor_score "😊 Great" (by decide) 3

/-- Claim C5: every save replaces the stored records of the current user
with the in-memory list.  After the document-store saves, the user's stored
journal entries are exactly the in-memory entries, the user's stored chats
are exactly the in-memory chats stamped with the username, records of other
users are untouched, and the file variant overwrites the whole file; no
save appends incrementally. -/
theorem save_replaces_user_records (user : String)
    (mem stored : List JournalEntry) (chats : List (String × List Msg))
    (storedChats : List ChatDoc) (fileStored : List JournalEntry)
    (hmem : mem ≠ []) (hchats : chats ≠ [])
    (hown : ∀ e ∈ mem, e.username = user) :
    (save_journal_entries true true user mem stored).filter
        (fun d => d.username == user) = mem
    ∧ (save_journal_entries true true user mem stored).filter
        (fun d => d.username != user)
      = stored.filter (fun d => d.username != user)
    ∧ (save_chats true true user chats storedChats).filter
        (fun d => d.username == user)
      = chats.map (fun p => ChatDoc.mk user p.1 p.2)
    ∧ (save_chats true true user chats storedChats).filter
        (fun d => d.username != user)
      = storedChats.filter (fun d => d.username != user)
    ∧ save_journal_entries_file mem fileStored = mem := by
  have hmem1 : (!mem.isEmpty) = true := by
    cases mem with
    | nil => exact absurd rfl hmem
    | cons a t => rfl
  have hch1 : (!chats.isEmpty) = true := by
    cases chats with
    | nil => exact absurd rfl hchats
    | cons a t => rfl
  have hsj : save_journal_entries true true user mem stored
      = stored.filter (fun d => d.username != user) ++ mem := by
    simp [save_journal_entries, hmem1]
  have hsc : save_chats true true user chats storedChats
      = storedChats.filter (fun d => d.username != user) ++
          chats.map (fun p => ChatDoc.mk user p.1 p.2) := by
    simp [save_chats, hch1]
  refine ⟨?_, ?_, ?_, ?_, rfl⟩
  · rw [hsj, List.filter_append]
    have h1 : (stored.filter (fun d => d.username != user)).filter
        (fun d => d.username == user) = [] :=
      filter_not_p_then_p (fun d => d.username == user) stored
    have h2 : mem.filter (fun d => d.username == user) = mem :=
      filter_of_all _ mem (fun a ha => by simp [hown a ha])
    rw [h1, h2, List.nil_append]
  · rw [hsj, List.filter_append]
    have h1 := filter_p_idem (fun (d : JournalEntry) => d.username != user) stored
    have h2 : mem.filter (fun d => d.username != user) = [] :=
      filter_of_none _ mem (fun a ha => by simp [hown a ha])
    rw [h1, h2, List.append_nil]
  · rw [hsc, List.filter_append]
    have h1 : (storedChats.filter (fun d => d.username != user)).filter
        (fun d => d.username == user) = [] :=
      filter_not_p_then_p (fun d => d.username == user) storedChats
    have h2 : (chats.map (fun p => ChatDoc.mk user p.1 p.2)).filter
        (fun d => d.username == user) = chats.map (fun p => ChatDoc.mk user p.1 p.2) := by
      refine filter_of_all _ _ (fun a ha => ?_)
      obtain ⟨pr, _, hpr⟩ := List.mem_map.mp ha
      subst hpr
      simp
    rw [h1, h2, List.nil_append]
  · rw [hsc, List.filter_append]
    have h1 := filter_p_idem (fun (d : ChatDoc) => d.username != user) storedChats
    have h2 : (chats.map (fun p => ChatDoc.mk user p.1 p.2)).filter
        (fun d => d.username != user) = [] := by
      refine filter_of_none _ _ (fun a ha => ?_)
      obtain ⟨pr, _, hpr⟩ := List.mem_map.mp ha
      subst hpr
      simp
    rw [h1, h2, List.append_nil]

/-- Witness for the C5 theorem at concrete stores. -/
theorem save_replaces_user_records_witness :
    (save_journal_entries true true "u" [sampleEntry] []).filter
        (fun d => d.username == "u") = [sampleEntry]
    ∧ (save_journal_entries true true "u" [sampleEntry] []).filter
        (fun d => d.username != "u")
      = ([] : List JournalEntry).filter (fun d => d.username != "u")
    ∧ (save_chats true true "u" [("2024-01-01_12:00", [])] []).filter
        (fun d => d.username == "u")
      = [("2024-01-01_12:00", ([] : List Msg))].map (fun p => ChatDoc.mk "u" p.1 p.2)
    ∧ (save_chats true true "u" [("2024-01-01_12:00", [])] []).filter
        (fun d => d.username != "u")
      = ([] : List ChatDoc).filter (fun d => d.username != "u")
    ∧ save_journal_entries_file [sampleEntry] [] = [sampleEntry] :=
  save_replaces_user_records "u" [sampleEntry] [] [("2024-01-01_12:00", [])]
    [] [] (by decide) (by decide) (by decide)

/-- Claim C6, counterexample: the streak transition rule is not evaluated
at session start.  With a stored state of streak 3 and last entry the day
before, the rule would give streak 4, but the session-start code sets the
streak fields to 0 and None without consulting stored data. -/
theorem session_start_no_rule_eval_cex :
    session_start_streak ⟨some 0, 3⟩ 1 = ⟨none, 0⟩
    ∧ update_streak 1 ⟨some 0, 3⟩ = ⟨some 1, 4⟩
    ∧ session_start_streak ⟨some 0, 3⟩ 1 ≠ update_streak 1 ⟨some 0, 3⟩ := by
  decide

/-- Claim C6, amended: the streak transition rule is evaluated only at
entry submission; session start sets the streak to 0 and last_entry_date
to None regardless of the stored last-entry date, so the session-start
streak does not reflect stored data. -/
theorem session_start_fixed_state (stored : StreakState) (today : Int) :
    session_start_streak stored today = ⟨none, 0⟩ := rfl

/-- Claim C7: with fewer than 3 entries generate_insights returns the
static keep-journaling message and issues no remote call; with 3 or more
it issues one remote call whose prompt embeds the journal bodies of the
last 5 (or fewer) entries joined with single spaces. -/
theorem generate_insights_spec (entries : List JournalEntry) :
    (entries.length < 3 →
      generate_insights entries =
        .static "Keep journaling! Insights will be generated after you have at least 3 entries.")
    ∧ (3 ≤ entries.length →
        generate_insights entries =
          .remoteCall (insightPromptPre ++
            String.intercalate " " (lastFiveJournals entries) ++ insightPromptPost))
    ∧ (lastFiveJournals entries).length = min 5 entries.length := by
  refine ⟨?_, ?_, ?_⟩
  · intro h
    simp [generate_insights, h]
  · intro h
    simp only [generate_insights]
    rw [if_neg (by omega)]
  · simp only [lastFiveJournals, List.length_map, List.length_drop]
    omega

/-- Witness for the C7 theorem: no entries gives the static message. -/
theorem generate_insights_spec_witness :
    generate_insights [] =
      .static "Keep journaling! Insights will be generated after you have at least 3 entries." :=
  (generate_insights_spec []).1 (by decide)

/-- Claim C8, counterexample: the insight call does not fall back to the
connection string; on a non-200 status it returns the distinct fixed string
of insightsFallback. -/
theorem insight_fallback_differs_cex :
    insights_remote (.ok 500 "overloaded") = insightsFallback
    ∧ insightsFallback ≠ connectionFallback := by decide

/-- Claim C8, amended: every remote failure (non-200 status or transport
exception) is absorbed into a fixed fallback value with no distinguishable
error code: the connection string for the reflection and conversational
calls, the default 5 for mood classification, and the separate fixed
insight string for the insight call. -/
theorem remote_failure_fallbacks (status : Nat) (text : String)
    (h : status ≠ 200) :
    get_ai_response (.ok status text) = connectionFallback
    ∧ get_ai_reflection (.ok status text) = connectionFallback
    ∧ analyze_mood (.ok status text) = 5
    ∧ insights_remote (.ok status text) = insightsFallback
    ∧ get_ai_response .exn = connectionFallback
    ∧ get_ai_reflection .exn = connectionFallback
    ∧ analyze_mood .exn = 5
    ∧ insights_remote .exn = insightsFallback := by
  refine ⟨?_, ?_, ?_, ?_, rfl, rfl, rfl, rfl⟩ <;>
    simp [get_ai_response, get_ai_reflection, analyze_mood, insights_remote, h]

/-- Witness for the amended C8 theorem at a concrete failure. -/
theorem remote_failure_fallbacks_witness :
    get_ai_response (.ok 503 "overloaded") = connectionFallback
    ∧ get_ai_reflection (.ok 503 "overloaded") = connectionFallback
    ∧ analyze_mood (.ok 503 "overloaded") = 5
    ∧ insights_remote (.ok 503 "overloaded") = insightsFallback
    ∧ get_ai_response .exn = connectionFallback
    ∧ get_ai_reflection .exn = connectionFallback
    ∧ analyze_mood .exn = 5
    ∧ insights_remote .exn = insightsFallback :=
  remote_failure_fallbacks 503 "overloaded" (by decide)

/-- Claim C9: CSV export emits exactly the columns Date, Time, Mood,
Mood Score, Mood Notes, Journal Entry, Tags in that order, one row per
entry; every newline in the two free-text fields is replaced by a space,
and the tag list becomes a single comma-joined field. -/
theorem csv_export_columns (entries : List JournalEntry) :
    export_csv entries = csvHeader :: entries.map csvRow
    ∧ csvHeader = ["Date", "Time", "Mood", "Mood Score", "Mood Notes",
        "Journal Entry", "Tags"]
    ∧ ∀ e ∈ entries,
        csvRow e = [e.date, e.time, e.mood, toString e.mood_score,
          collapseNewlines e.mood_input, collapseNewlines e.journal,
          String.intercalate ", " e.tags]
        ∧ '\n' ∉ (collapseNewlines e.mood_input).toList
        ∧ '\n' ∉ (collapseNewlines e.journal).toList := by
  refine ⟨rfl, rfl, ?_⟩
  intro e _
  exact ⟨rfl, collapseNewlines_no_newline _, collapseNewlines_no_newline _⟩

/-- Witness for the C9 theorem at an entry holding newlines. -/
theorem csv_export_columns_witness :
    csvRow sampleEntry = [sampleEntry.date, sampleEntry.time, sampleEntry.mood,
      toString sampleEntry.mood_score, collapseNewlines sampleEntry.mood_input,
      collapseNewlines sampleEntry.journal, String.intercalate ", " sampleEntry.tags]
    ∧ '\n' ∉ (collapseNewlines sampleEntry.mood_input).toList
    ∧ '\n' ∉ (collapseNewlines sampleEntry.journal).toList :=
  (csv_export_columns [sampleEntry]).2.2 sampleEntry (by decide)

/-- Claim C10: a save with an empty in-memory collection, or without a
logged-in user, or without a database handle performs no storage operation:
the stored records are returned unchanged, so such a save never deletes
the user's stored data. -/
theorem empty_save_noop (hasDb loggedIn : Bool) (user : String)
    (stored : List JournalEntry) (storedChats : List ChatDoc)
    (mem : List JournalEntry) (chats : List (String × List Msg)) :
    save_journal_entries hasDb loggedIn user [] stored = stored
    ∧ save_chats hasDb loggedIn user [] storedChats = storedChats
    ∧ save_journal_entries false loggedIn user mem stored = stored
    ∧ save_chats false loggedIn user chats storedChats = storedChats
    ∧ save_journal_entries hasDb false user mem stored = stored
    ∧ save_chats hasDb false user chats storedChats = storedChats := by
  refine ⟨?_, ?_, ?_, ?_, ?_, ?_⟩ <;> simp [save_journal_entries, save_chats]

end Mental
